import Mathlib

/-
Shallow embedding of the EduCom study application's persistent state and
caching subsystem, its fetch orchestration, and its two session controllers
(learning and quiz), translated from the TypeScript sources:

  * services/storage.ts      (progress record, content cache)
  * services/geminiService.ts (provider wrappers with fallbacks)
  * views/ChapterLearn.tsx   (learning session controller)
  * views/Quiz.tsx           (quiz session controller)

Conventions of the embedding:
  * `localStorage` is a pair of cells (progress record, cache record); each
    cell holds either well-formed bytes (modelled by the already-parsed
    value, since `JSON.parse ∘ JSON.stringify` is the identity on
    JSON-representable values) or malformed raw bytes that fail to parse.
  * JavaScript exceptions are `Except`; a `try/catch` that swallows the
    exception becomes a total function returning the unchanged state.
  * JavaScript objects used as string-keyed records become association
    lists in insertion order with unique keys; property assignment updates
    the first matching key in place or appends a fresh entry at the end.
  * JavaScript numbers that the program uses as integers are `Nat`/`Int`;
    scroll geometry (fractional pixels) is `ℚ`.
-/

/-! ## JSON value model

Values storable in the content cache (`JSON.stringify`-able data). -/

inductive Json where
  | null : Json
  | bool (b : Bool) : Json
  | num (n : Int) : Json
  | str (s : String) : Json
  | arr (elems : List Json) : Json
  | obj (fields : List (String × Json)) : Json
deriving Repr

/-- Number of characters `JSON.stringify` emits for one character of a
string (quote and backslash escape to two characters, the named control
escapes to two, other control characters to a six-character `\uXXXX`
escape, everything else is emitted verbatim). -/
def escCharLen (c : Char) : Nat :=
  if c = '"' ∨ c = '\\' then 2
  else if c = '\n' ∨ c = '\t' ∨ c = '\r' ∨ c = '\x08' ∨ c = '\x0c' then 2
  else if c.toNat < 32 then 6
  else 1

/-- Length of the body `JSON.stringify` emits for a string (excluding the
surrounding quotes). -/
def escLen (s : String) : Nat :=
  (s.data.map escCharLen).sum

mutual
/-- Length of the string `JSON.stringify` produces for a JSON value.
Numbers are modelled at their decimal representation. -/
def jsonLen : Json → Nat
  | .null => 4
  | .bool b => if b then 4 else 5
  | .num n => (Int.repr n).length
  | .str s => 2 + escLen s
  | .arr elems => 2 + jsonLenElems elems
  | .obj fields => 2 + jsonLenFields fields

/-- Serialized length of comma-separated array elements. -/
def jsonLenElems : List Json → Nat
  | [] => 0
  | [x] => jsonLen x
  | x :: y :: rest => jsonLen x + 1 + jsonLenElems (y :: rest)

/-- Serialized length of comma-separated `"key":value` object fields. -/
def jsonLenFields : List (String × Json) → Nat
  | [] => 0
  | [(k, v)] => 2 + escLen k + 1 + jsonLen v
  | (k, v) :: e :: rest => 2 + escLen k + 1 + jsonLen v + 1 + jsonLenFields (e :: rest)
end

/-- JavaScript truthiness of a JSON value (`null`, `false`, `0` and `""`
are falsy; objects and arrays are always truthy). -/
def Json.isTruthy : Json → Bool
  | .null => false
  | .bool b => b
  | .num n => !(n == 0)
  | .str s => !(s == "")
  | .arr _ => true
  | .obj _ => true

/-! ## Persistent byte cells -/

/-- Bytes persisted in one localStorage cell: either the serialization of
a well-formed value of the expected shape, or raw bytes on which
`JSON.parse` fails. -/
inductive Bytes (α : Type) where
  | wellFormed (v : α) : Bytes α
  | malformed (raw : String) : Bytes α
deriving Repr

/-- Thrown by `JSON.parse` on malformed persisted bytes. -/
inductive StorageError where
  | corruptRecord : StorageError
deriving Repr, DecidableEq

/-! ## Data model (types.ts / storage.ts) -/

/-- `QuizResult` from types.ts. -/
structure QuizResult where
  score : Nat
  total : Nat
  date : String
deriving Repr, DecidableEq

/-- `UserProgress` from storage.ts. `quizScores` is a string-keyed record,
modelled as an insertion-ordered association list. -/
structure UserProgress where
  completedChapters : List String
  quizScores : List (String × QuizResult)
deriving Repr, DecidableEq

/-- The two localStorage cells the storage module uses:
`gseb_commerce_app_progress` and `gseb_content_cache`. -/
structure Storage where
  progress : Option (Bytes UserProgress)
  cache : Option (Bytes (List (String × Json)))
deriving Repr

def emptyStorage : Storage := { progress := none, cache := none }

def emptyProgress : UserProgress := { completedChapters := [], quizScores := [] }

/-- Property read `record[k]` on a string-keyed JS object. -/
def lookupKey : List (String × α) → String → Option α
  | [], _ => none
  | (k', v) :: rest, k => if k' = k then some v else lookupKey rest k

/-- Property assignment `record[k] = v` on a string-keyed JS object:
overwrites the existing entry in place, else appends at the end. -/
def setKey : List (String × α) → String → α → List (String × α)
  | [], k, v => [(k, v)]
  | (k', v') :: rest, k, v =>
      if k' = k then (k, v) :: rest else (k', v') :: setKey rest k v

/-! ## Progress management (storage.ts) -/

/-- `saveProgress`: `localStorage.setItem(STORAGE_KEY, JSON.stringify(progress))`. -/
def saveProgress (progress : UserProgress) (st : Storage) : Storage :=
  { st with progress := some (.wellFormed progress) }

/-- `loadProgress`: `data ? JSON.parse(data) : null`. An absent cell (and,
because the empty string is falsy, empty bytes) yields `null`; any other
bytes are fed to `JSON.parse`, which throws if they do not parse. -/
def loadProgress (st : Storage) : Except StorageError (Option UserProgress) :=
  match st.progress with
  | none => .ok none
  | some (.wellFormed p) => .ok (some p)
  | some (.malformed raw) => if raw = "" then .ok none else .error .corruptRecord

/-- The progress key `` `${classId}-${subjectId}-${chapterId}` ``. -/
def progressKey (classId : Nat) (subjectId chapterId : String) : String :=
  toString classId ++ "-" ++ subjectId ++ "-" ++ chapterId

/-- `markChapterComplete` from storage.ts: `loadProgress() || default`,
insert only if absent (`.includes`), write back only on insertion. A parse
failure inside `loadProgress` propagates (no handler here). -/
def markChapterComplete (classId : Nat) (subjectId chapterId : String)
    (st : Storage) : Except StorageError Storage :=
  match loadProgress st with
  | .error e => .error e
  | .ok loaded =>
      let current := loaded.getD emptyProgress
      let key := progressKey classId subjectId chapterId
      if key ∈ current.completedChapters then
        .ok st
      else
        .ok (saveProgress
          { current with completedChapters := current.completedChapters ++ [key] } st)

/-- `saveQuizScore` from storage.ts: always overwrites the entry. A parse
failure inside `loadProgress` propagates (no handler here). -/
def saveQuizScore (classId : Nat) (subjectId chapterId : String)
    (result : QuizResult) (st : Storage) : Except StorageError Storage :=
  match loadProgress st with
  | .error e => .error e
  | .ok loaded =>
      let current := loaded.getD emptyProgress
      let key := progressKey classId subjectId chapterId
      .ok (saveProgress
        { current with quizScores := setKey current.quizScores key result } st)

/-! ## Content caching (storage.ts) -/

/-- `JSON.parse(localStorage.getItem(CONTENT_CACHE_KEY) || '{}')`: an
absent cell (or empty bytes, which are falsy) parses as the empty
container; any other bytes throw if malformed. -/
def readCacheContainer (st : Storage) :
    Except StorageError (List (String × Json)) :=
  match st.cache with
  | none => .ok []
  | some (.wellFormed m) => .ok m
  | some (.malformed raw) => if raw = "" then .ok [] else .error .corruptRecord

/-- `saveCachedContent` from storage.ts. The whole body sits in a
`try/catch` whose handler only logs, so a parse failure of the existing
container bytes leaves the storage unchanged. On overflow of the 4.5 MB
ceiling the entire container is dropped and only the new entry is kept. -/
def saveCachedContent (key : String) (data : Json) (st : Storage) : Storage :=
  match readCacheContainer st with
  | .error _ => st
  | .ok currentCache =>
      if jsonLen (Json.obj (setKey currentCache key data)) > 4500000 then
        { st with cache := some (.wellFormed [(key, data)]) }
      else
        { st with cache := some (.wellFormed (setKey currentCache key data)) }

/-- `getCachedContent` from storage.ts: `return currentCache[key] as T || null`,
with a catch-all returning `null`. Note the `|| null`: a falsy cached
value reads back as `null`. -/
def getCachedContent (key : String) (st : Storage) : Option Json :=
  match readCacheContainer st with
  | .error _ => none
  | .ok currentCache =>
      match lookupKey currentCache key with
      | some v => if v.isTruthy then some v else none
      | none => none

/-! ## External provider wrappers (geminiService.ts)

Each wrapper lets the asynchronous provider call either resolve with a
(parsed) payload or reject (network failure, or a `JSON.parse` failure
inside the same `try`); the wrapper's own `try/catch` converts rejection
into a fixed fallback, so the wrapped functions themselves never throw. -/

/-- Outcome of one external provider call as seen inside the wrapper's
`try` block. -/
inductive ProviderCall (α : Type) where
  | resolves (v : α) : ProviderCall α
  | rejects : ProviderCall α

/-- `Source` from geminiService.ts. -/
structure Source where
  title : String
  uri : String
deriving Repr, DecidableEq

/-- `ExplanationResult` from geminiService.ts. -/
structure ExplanationResult where
  content : String
  sources : List Source
deriving Repr, DecidableEq

/-- `GlossaryTerm` from types.ts. -/
structure GlossaryTerm where
  term : String
  definition : String
deriving Repr, DecidableEq

/-- `QuizQuestion` from types.ts. -/
structure QuizQuestion where
  question : String
  options : List String
  correctAnswer : Nat
  explanation : String
deriving Repr, DecidableEq

/-- `getChapterSyllabus`: resolves with `response.text` (already parsed
here; `none` models an empty `text`). Empty text falls back to
`["Introduction", "Key Concepts", "Summary"]`; a rejection is caught and
falls back to `["Overview", "Main Concepts", "Conclusion"]`. -/
def getChapterSyllabus (call : ProviderCall (Option (List String))) : List String :=
  match call with
  | .resolves (some topics) => topics
  | .resolves none => ["Introduction", "Key Concepts", "Summary"]
  | .rejects => ["Overview", "Main Concepts", "Conclusion"]

/-- Raw provider response for an explanation: optional text plus the
grounding chunks' web sources in order. -/
structure ExplProviderResponse where
  text : Option String
  sourceChunks : List Source

/-- `sources.filter((v, i, a) => a.findIndex(t => t.uri === v.uri) === i)`:
keep the first occurrence of each uri. -/
def dedupByUri : List Source → List Source
  | [] => []
  | s :: rest => s :: dedupByUri (rest.filter (fun t => !(t.uri == s.uri)))
termination_by l => l.length
decreasing_by
  simp only [List.length_cons]
  exact Nat.lt_succ_of_le (List.length_filter_le _ _)

/-- The fixed error-marker explanation returned on provider failure. -/
def explanationFallback : ExplanationResult :=
  { content := "## Error\nCould not generate content at this time. Please check your connection and try again.",
    sources := [] }

/-- `generateTopicExplanation`: on resolution, the content is the response
text (or a placeholder when empty) with sources deduplicated by uri; a
rejection is caught and yields the error-marker fallback. -/
def generateTopicExplanation (call : ProviderCall ExplProviderResponse) :
    ExplanationResult :=
  match call with
  | .resolves resp =>
      { content := resp.text.getD "Sorry, content generation failed.",
        sources := dedupByUri resp.sourceChunks }
  | .rejects => explanationFallback

/-- `generateChapterQuiz`: empty text and rejection both yield `[]`. -/
def generateChapterQuiz (call : ProviderCall (Option (List QuizQuestion))) :
    List QuizQuestion :=
  match call with
  | .resolves (some qs) => qs
  | .resolves none => []
  | .rejects => []

/-- `generateSubjectGlossary`: empty text and rejection both yield `[]`. -/
def generateSubjectGlossary (call : ProviderCall (Option (List GlossaryTerm))) :
    List GlossaryTerm :=
  match call with
  | .resolves (some ts) => ts
  | .resolves none => []
  | .rejects => []

/-! ## Cache payload encodings

The views pass typed values to `saveCachedContent`; in the embedding the
cache stores their JSON images. The decoders model the unchecked
`as T` casts the views apply to cache hits; they invert the encoders on
values the application itself wrote. -/

def encodeTopics (topics : List String) : Json :=
  .arr (topics.map .str)

def decodeTopics : Json → List String
  | .arr elems => elems.filterMap (fun j => match j with | .str s => some s | _ => none)
  | _ => []

def encodeSource (s : Source) : Json :=
  .obj [("title", .str s.title), ("uri", .str s.uri)]

def encodeExpl (r : ExplanationResult) : Json :=
  .obj [("content", .str r.content), ("sources", .arr (r.sources.map encodeSource))]

def encodeQuestion (q : QuizQuestion) : Json :=
  .obj [("question", .str q.question),
        ("options", .arr (q.options.map .str)),
        ("correctAnswer", .num q.correctAnswer),
        ("explanation", .str q.explanation)]

def encodeQuestions (qs : List QuizQuestion) : Json :=
  .arr (qs.map encodeQuestion)

def encodeTerm (t : GlossaryTerm) : Json :=
  .obj [("term", .str t.term), ("definition", .str t.definition)]

def encodeTerms (ts : List GlossaryTerm) : Json :=
  .arr (ts.map encodeTerm)

/-! ## Learning session controller (ChapterLearn.tsx) -/

/-- JavaScript `toLowerCase` on the code points the application handles
(character-wise lowercasing; agrees with `String.toLower`, but is
structurally recursive so that concrete instances reduce in the kernel). -/
def toLowerAscii (s : String) : String :=
  String.mk (s.data.map Char.toLower)

/-- Scenario B of `initializeChapter` (cold start, syllabus cache miss):
syllabus and first-topic content are fetched jointly; the fetched topic
list is canonicalized (case-insensitive "Introduction" entries removed,
then "Introduction" prepended), the canonical list is cached under the
syllabus key and the first-topic result is pre-seeded under the content
key for index 0. The surrounding `try/catch`'s fallback branch is dead in
the embedding because neither wrapper ever rejects. -/
def initColdStart (syllabusCall : ProviderCall (Option (List String)))
    (contentCall : ProviderCall ExplProviderResponse)
    (syllabusKey contentKey : String) (st : Storage) :
    List String × Storage :=
  let fetchedTopics := getChapterSyllabus syllabusCall
  let firstContentResult := generateTopicExplanation contentCall
  let filteredTopics := fetchedTopics.filter (fun t => !(toLowerAscii t == "introduction"))
  let finalTopics := "Introduction" :: filteredTopics
  let st1 := saveCachedContent syllabusKey (encodeTopics finalTopics) st
  let st2 := saveCachedContent contentKey (encodeExpl firstContentResult) st1
  (finalTopics, st2)

/-- `initializeChapter` from ChapterLearn.tsx: on a non-empty cached
syllabus (Scenario A) just load it; otherwise run the cold-start parallel
fetch (Scenario B). Returns the resulting topic list and storage. -/
def initializeChapter (syllabusCall : ProviderCall (Option (List String)))
    (contentCall : ProviderCall ExplProviderResponse)
    (syllabusKey contentKey : String) (st : Storage) :
    List String × Storage :=
  match getCachedContent syllabusKey st with
  | some j =>
      if (decodeTopics j).length > 0 then (decodeTopics j, st)
      else initColdStart syllabusCall contentCall syllabusKey contentKey st
  | none => initColdStart syllabusCall contentCall syllabusKey contentKey st

def decodeSource (j : Json) : Option Source :=
  match j with
  | .obj fields =>
      match lookupKey fields "title", lookupKey fields "uri" with
      | some (.str t), some (.str u) => some { title := t, uri := u }
      | _, _ => none
  | _ => none

def decodeExpl (j : Json) : ExplanationResult :=
  match j with
  | .obj fields =>
      { content := match lookupKey fields "content" with
          | some (.str s) => s
          | _ => "",
        sources := match lookupKey fields "sources" with
          | some (.arr elems) => elems.filterMap decodeSource
          | _ => [] }
  | _ => { content := "", sources := [] }

/-- The per-topic content effect of ChapterLearn.tsx: a cache hit
populates content and sources from the cache (`cachedData.sources || []`);
on a miss, `generateTopicExplanation` (which never rejects) is awaited and
its result is written through unconditionally. -/
def fetchTopicContent (call : ProviderCall ExplProviderResponse)
    (contentKey : String) (st : Storage) : ExplanationResult × Storage :=
  match getCachedContent contentKey st with
  | some j => (decodeExpl j, st)
  | none =>
      let result := generateTopicExplanation call
      (result, saveCachedContent contentKey (encodeExpl result) st)

/-- `handleScroll` from ChapterLearn.tsx: no clamping is applied in the
positive-scroll-range branch. Scroll geometry is modelled over `ℚ`. -/
def handleScroll (scrollTop scrollHeight clientHeight : ℚ) : ℚ :=
  if scrollHeight - clientHeight > 0 then
    (scrollTop / (scrollHeight - clientHeight)) * 100
  else
    100

/-! ## Quiz session controller (Quiz.tsx) -/

/-- The quiz view's session state (`useState` hooks of Quiz.tsx). -/
structure QuizState where
  questions : List QuizQuestion
  currentQuestionIndex : Nat
  selectedOption : Option Nat
  isAnswered : Bool
  score : Nat
  showResults : Bool
deriving Repr, DecidableEq

/-- State after `loadQuiz` resets and the question list arrives. -/
def initQuizState (qs : List QuizQuestion) : QuizState :=
  { questions := qs, currentQuestionIndex := 0, selectedOption := none,
    isAnswered := false, score := 0, showResults := false }

/-- `handleOptionSelect`. -/
def handleOptionSelect (index : Nat) (s : QuizState) : QuizState :=
  if s.isAnswered then s else { s with selectedOption := some index }

/-- `selectedOption === questions[currentQuestionIndex].correctAnswer`.
Out-of-range access is totalized to `false`; the handlers are only
invoked while the index is in range. -/
def currentSelectionCorrect (s : QuizState) : Bool :=
  match s.selectedOption, s.questions.get? s.currentQuestionIndex with
  | some i, some q => i == q.correctAnswer
  | _, _ => false

/-- `handleSubmitAnswer`: a no-op without a selection, else marks answered
and increments the running score iff the selection is correct. -/
def handleSubmitAnswer (s : QuizState) : QuizState :=
  match s.selectedOption with
  | none => s
  | some _ =>
      { s with isAnswered := true,
               score := s.score + (if currentSelectionCorrect s then 1 else 0) }

/-- `handleNextQuestion`: before the last question it advances and clears
the per-question state; at the last question it shows the results and
commits a `QuizResult` (the returned `Option QuizResult` is the value the
code passes to `saveQuizScore`). Note the committed score re-adds
"+1 if the current selection is correct" on top of the running score that
`handleSubmitAnswer` already incremented. -/
def handleNextQuestion (now : String) (s : QuizState) :
    QuizState × Option QuizResult :=
  if s.currentQuestionIndex < s.questions.length - 1 then
    ({ s with currentQuestionIndex := s.currentQuestionIndex + 1,
              selectedOption := none, isAnswered := false }, none)
  else
    ({ s with showResults := true },
     some { score := s.score + (if currentSelectionCorrect s then 1 else 0),
            total := s.questions.length, date := now })

/-- One full user interaction on one question: select an option, submit,
then advance. -/
def quizStep (now : String) (choice : Nat)
    (acc : QuizState × Option QuizResult) : QuizState × Option QuizResult :=
  let s2 := handleSubmitAnswer (handleOptionSelect choice acc.1)
  let (s3, committed) := handleNextQuestion now s2
  (s3, match committed with | some r => some r | none => acc.2)

/-- Run a whole quiz session: one select/submit/advance round per choice,
remembering the committed result of the final advance. -/
def runQuiz (now : String) (qs : List QuizQuestion) (choices : List Nat) :
    QuizState × Option QuizResult :=
  choices.foldl (fun acc choice => quizStep now choice acc) (initQuizState qs, none)

/-- `loadQuiz`'s cache-miss branch in Quiz.tsx: fetch, then cache the
result only when it is non-empty. -/
def loadQuizOnMiss (call : ProviderCall (Option (List QuizQuestion)))
    (cacheKey : String) (st : Storage) : List QuizQuestion × Storage :=
  let qs := generateChapterQuiz call
  (qs, if qs.length > 0 then saveCachedContent cacheKey (encodeQuestions qs) st else st)

/-- `fetchTerms`' cache-miss branch in Glossary.tsx: fetch, then cache the
result only when it is non-empty. -/
def fetchTermsOnMiss (call : ProviderCall (Option (List GlossaryTerm)))
    (key : String) (st : Storage) : List GlossaryTerm × Storage :=
  let newTerms := generateSubjectGlossary call
  (newTerms, if newTerms.length > 0 then saveCachedContent key (encodeTerms newTerms) st else st)

/-! ## Helper lemmas about the association-list record operations -/

theorem lookupKey_setKey_self (l : List (String × α)) (k : String) (v : α) :
    lookupKey (setKey l k v) k = some v := by
  induction l with
  | nil => simp [setKey, lookupKey]
  | cons hd tl ih =>
      obtain ⟨k', v'⟩ := hd
      by_cases hk : k' = k
      · subst hk; simp [setKey, lookupKey]
      · simp [setKey, lookupKey, hk, ih]

theorem lookupKey_setKey_ne (l : List (String × α)) (k k' : String) (v : α)
    (h : k' ≠ k) : lookupKey (setKey l k v) k' = lookupKey l k' := by
  have hk' : k ≠ k' := Ne.symm h
  induction l with
  | nil => simp [setKey, lookupKey, hk']
  | cons hd tl ih =>
      obtain ⟨k'', v''⟩ := hd
      by_cases hkk : k'' = k
      · subst hkk
        simp [setKey, lookupKey, hk']
      · simp only [setKey, if_neg hkk, lookupKey]
        by_cases hk2 : k'' = k' <;> simp [hk2, ih]

/-- After a `saveCachedContent` over a parseable container, the stored
container is the updated one, or just the new entry on overflow. -/
theorem readCacheContainer_save {st : Storage} {m : List (String × Json)}
    (h : readCacheContainer st = .ok m) (k : String) (v : Json) :
    readCacheContainer (saveCachedContent k v st) =
      .ok (if jsonLen (Json.obj (setKey m k v)) > 4500000 then [(k, v)]
           else setKey m k v) := by
  simp only [saveCachedContent, h]
  split <;> simp_all [readCacheContainer]

/-- Write-then-read for the just-written key, both branches at once. -/
theorem getCachedContent_save_self {st : Storage} {m : List (String × Json)}
    (h : readCacheContainer st = .ok m) (k : String) (v : Json)
    (hv : v.isTruthy = true) :
    getCachedContent k (saveCachedContent k v st) = some v := by
  have h2 := readCacheContainer_save h k v
  by_cases hbig : jsonLen (Json.obj (setKey m k v)) > 4500000
  · rw [if_pos hbig] at h2
    simp [getCachedContent, h2, lookupKey, hv]
  · rw [if_neg hbig] at h2
    simp [getCachedContent, h2, lookupKey_setKey_self, hv]

/-! ## Claim theorems -/

/-- A concrete single-question quiz whose one question is answered
correctly. -/
def sampleQ : QuizQuestion :=
  { question := "q", options := ["a", "b", "c", "d"], correctAnswer := 0,
    explanation := "e" }

/-- A five-question quiz, every question alike. -/
def fiveQs : List QuizQuestion := List.replicate 5 sampleQ

/-- C1: the claim states the committed `QuizResult`'s score equals the
running score accumulated by the per-question `submitAnswer` increments.
On a one-question quiz answered correctly the running score after the
submit is 1, yet the final `advance` commits score 2 (it re-adds "+1 if
the current selection is correct" on top of the already-incremented
running score), so the code double-counts the final question. -/
theorem quiz_final_advance_double_counts_last_answer :
    (handleSubmitAnswer (handleOptionSelect 0 (initQuizState [sampleQ]))).score = 1 ∧
    (handleNextQuestion "2026-01-01"
        (handleSubmitAnswer (handleOptionSelect 0 (initQuizState [sampleQ])))).2
      = some { score := 2, total := 1, date := "2026-01-01" } :=
  ⟨rfl, rfl⟩

/-- C2: the claim states every committed `QuizResult` satisfies
`score ≤ total`. Running the five-question quiz with every answer correct
leaves the running score at 5, but the committed result written through
`saveQuizScore` into `quizScores` is `{score := 6, total := 5}`, and
`6 ≤ 5` is false: the invariant is violated by the code. -/
theorem committed_quiz_score_can_exceed_total :
    (runQuiz "d" fiveQs [0, 0, 0, 0, 0]).1.score = 5 ∧
    (runQuiz "d" fiveQs [0, 0, 0, 0, 0]).2 = some { score := 6, total := 5, date := "d" } ∧
    saveQuizScore 12 "accounts" "ch1" { score := 6, total := 5, date := "d" } emptyStorage =
      .ok { progress := some (.wellFormed
              { completedChapters := [],
                quizScores := [("12-accounts-ch1", { score := 6, total := 5, date := "d" })] }),
            cache := none } ∧
    ¬ ((6 : Nat) ≤ 5) :=
  ⟨rfl, rfl, rfl, by decide⟩

/-- Persisted cells holding non-empty bytes on which `JSON.parse` fails. -/
def corruptStorage : Storage :=
  { progress := some (.malformed "\x7b"), cache := some (.malformed "\x7b") }

/-- C3 counterexample: the claim states that `loadProgress` (like
`getCachedContent`) returns absent on bytes that fail to parse; on the
concrete malformed progress bytes `"{"` it instead propagates the parse
failure to the caller. -/
theorem loadProgress_throws_on_malformed_bytes :
    loadProgress corruptStorage = .error .corruptRecord ∧
    loadProgress corruptStorage ≠ .ok none :=
  ⟨rfl, fun h => Except.noConfusion h⟩

/-- C3 as amended: on persisted bytes that fail to parse,
`getCachedContent` returns absent (its body is wrapped in a catch-all),
but `loadProgress` has no handler and propagates the parse failure. -/
theorem parse_failure_absent_for_cache_fatal_for_progress
    (st : Storage) (k rawc rawp : String)
    (hc : st.cache = some (.malformed rawc)) (hrawc : rawc ≠ "")
    (hp : st.progress = some (.malformed rawp)) (hrawp : rawp ≠ "") :
    getCachedContent k st = none ∧
    loadProgress st = .error .corruptRecord := by
  constructor
  · simp [getCachedContent, readCacheContainer, hc, hrawc]
  · simp [loadProgress, hp, hrawp]

theorem parse_failure_absent_for_cache_fatal_for_progress_witness :
    getCachedContent "k" corruptStorage = none ∧
    loadProgress corruptStorage = .error .corruptRecord :=
  parse_failure_absent_for_cache_fatal_for_progress corruptStorage "k" "\x7b" "\x7b"
    rfl (by decide) rfl (by decide)

/-- C5 counterexample: the claim states that after a non-overflowing
`saveCachedContent (k, v)`, `getCachedContent k` returns `v`. Writing the
falsy value `false` under key `"q"` stays far below the ceiling and the
entry is stored, yet the read path (`currentCache[key] as T || null`)
returns absent. -/
theorem cache_roundtrip_fails_on_falsy_value :
    jsonLen (Json.obj (setKey ([] : List (String × Json)) "q" (Json.bool false))) ≤ 4500000 ∧
    saveCachedContent "q" (Json.bool false) emptyStorage =
      { progress := none, cache := some (.wellFormed [("q", Json.bool false)]) } ∧
    getCachedContent "q" (saveCachedContent "q" (Json.bool false) emptyStorage) = none :=
  ⟨by decide, rfl, rfl⟩

/-- C5 as amended: the write-through round trip holds for every truthy
value, provided the pre-existing container bytes parse (a save over
unparseable bytes is swallowed as a no-op, and a falsy cached value reads
back as absent through `|| null`). -/
theorem cache_write_through_roundtrip (k : String) (v : Json) (st : Storage)
    (m : List (String × Json))
    (hread : readCacheContainer st = .ok m)
    (hv : v.isTruthy = true)
    (_hsize : jsonLen (Json.obj (setKey m k v)) ≤ 4500000) :
    getCachedContent k (saveCachedContent k v st) = some v :=
  getCachedContent_save_self hread k v hv

theorem cache_write_through_roundtrip_witness :
    getCachedContent "a" (saveCachedContent "a" (Json.num 1) emptyStorage) = some (Json.num 1) :=
  cache_write_through_roundtrip "a" (Json.num 1) emptyStorage [] rfl rfl (by decide)

/-- C9 counterexample: the claim states the read-progress value is clamped
to [0, 100]. With scroll position 2, scroll height 2 and viewport height 1
the code sets progress to 200: no upper clamp is applied. -/
theorem read_progress_exceeds_100_without_clamp :
    handleScroll 2 2 1 = 200 ∧ ¬ (handleScroll 2 2 1 ≤ 100) := by
  constructor <;> norm_num [handleScroll]

/-- C9 as amended: when `scrollHeight - clientHeight > 0` the progress is
set to exactly `(position / (height - viewport)) * 100` with no upper
clamp (it is nonnegative for a nonnegative position); when there is
nothing to scroll the progress is 100, in particular at position 0 with
`scrollHeight = clientHeight`. -/
theorem read_progress_update_formula (p h c : ℚ) (hp : 0 ≤ p) :
    (h - c > 0 → handleScroll p h c = p / (h - c) * 100 ∧ 0 ≤ handleScroll p h c) ∧
    (h - c ≤ 0 → handleScroll p h c = 100) ∧
    handleScroll 0 h h = 100 := by
  refine ⟨fun hpos => ⟨?_, ?_⟩, fun hle => ?_, ?_⟩
  · rw [handleScroll, if_pos hpos]
  · rw [handleScroll, if_pos hpos]
    exact mul_nonneg (div_nonneg hp hpos.le) (by norm_num)
  · rw [handleScroll, if_neg (by exact fun hh => absurd hh (not_lt.mpr hle))]
  · rw [handleScroll]
    simp

theorem read_progress_update_formula_witness :
    0 ≤ (0 : ℚ) ∧ handleScroll 0 1 1 = 100 :=
  ⟨le_refl 0, (read_progress_update_formula 0 1 1 (le_refl 0)).2.2⟩

/-- The spec's cold-start canonicalization, stated in the spec's words:
any provider-returned entry case-insensitively equal to "Introduction" is
removed, then "Introduction" is prepended. -/
def specCanonicalTopics (provided : List String) : List String :=
  "Introduction" ::
    provided.filter (fun t => !(toLowerAscii t == toLowerAscii "Introduction"))

/-- C7: on a cold start (syllabus cache miss), the topic sequence produced
by `initializeChapter` from a provider topic list equals the spec's
canonicalization, contains exactly one occurrence of "Introduction", and
yields exactly ["Introduction", "Basics", "Advanced"] on the two example
provider lists of the spec. -/
theorem cold_start_canonical_topics (provided : List String)
    (contentCall : ProviderCall ExplProviderResponse) (sk ck : String)
    (st : Storage) (hmiss : getCachedContent sk st = none) :
    (initializeChapter (.resolves (some provided)) contentCall sk ck st).1
      = specCanonicalTopics provided ∧
    ((initializeChapter (.resolves (some provided)) contentCall sk ck st).1).count
        "Introduction" = 1 ∧
    (initializeChapter (.resolves (some ["Introduction", "Basics", "Advanced"]))
        contentCall sk ck st).1 = ["Introduction", "Basics", "Advanced"] ∧
    (initializeChapter (.resolves (some ["Basics", "Advanced"]))
        contentCall sk ck st).1 = ["Introduction", "Basics", "Advanced"] := by
  have hred : ∀ call, (initializeChapter call contentCall sk ck st).1
      = (initColdStart call contentCall sk ck st).1 := by
    intro call
    simp [initializeChapter, hmiss]
  refine ⟨?_, ?_, ?_, ?_⟩
  · rw [hred]
    rfl
  · rw [hred]
    have hnot : "Introduction" ∉
        provided.filter (fun t => !(toLowerAscii t == "introduction")) := by
      intro hmem
      have hp := List.of_mem_filter hmem
      simp [toLowerAscii] at hp
    simp only [initColdStart, getChapterSyllabus]
    rw [List.count_cons_self, List.count_eq_zero.mpr hnot]
  · rw [hred]
    rfl
  · rw [hred]
    rfl

theorem cold_start_canonical_topics_witness :
    getCachedContent "syllabus_11_eco_c1" emptyStorage = none ∧
    (initializeChapter (.resolves (some ["Basics", "INTRODUCTION", "Advanced"]))
        .rejects "syllabus_11_eco_c1" "content_11_eco_c1_0" emptyStorage).1
      = specCanonicalTopics ["Basics", "INTRODUCTION", "Advanced"] :=
  ⟨rfl, (cold_start_canonical_topics ["Basics", "INTRODUCTION", "Advanced"]
    .rejects "syllabus_11_eco_c1" "content_11_eco_c1_0" emptyStorage rfl).1⟩

/-- C8: `markChapterComplete` is idempotent. A successful call is a fixed
point (running it again returns the same storage unchanged); when the
loaded record held the key at most once (in particular for any
duplicate-free record, or an absent one), the key occurs exactly once
afterwards; and duplicate-freeness of `completedChapters` is preserved. -/
theorem markChapterComplete_idempotent (classId : Nat)
    (subjectId chapterId : String) (st st' : Storage)
    (h : markChapterComplete classId subjectId chapterId st = .ok st') :
    markChapterComplete classId subjectId chapterId st' = .ok st' ∧
    ∀ p, loadProgress st = .ok p →
      (((p.getD emptyProgress).completedChapters.count
          (progressKey classId subjectId chapterId) ≤ 1) →
        ∃ p', loadProgress st' = .ok (some p') ∧
          p'.completedChapters.count (progressKey classId subjectId chapterId) = 1) ∧
      ((p.getD emptyProgress).completedChapters.Nodup →
        ∃ p', loadProgress st' = .ok (some p') ∧ p'.completedChapters.Nodup) := by
  cases hload : loadProgress st with
  | error e =>
      simp only [markChapterComplete, hload] at h
      exact Except.noConfusion h
  | ok p =>
      simp only [markChapterComplete, hload] at h
      by_cases hmem : progressKey classId subjectId chapterId ∈
          (p.getD emptyProgress).completedChapters
      · rw [if_pos hmem] at h
        injection h with hst
        subst hst
        cases p with
        | none => simp [emptyProgress] at hmem
        | some q =>
            refine ⟨?_, ?_⟩
            · simp only [markChapterComplete, hload]
              rw [if_pos hmem]
            · intro p2 hp2
              injection hp2 with hp2
              subst hp2
              constructor
              · intro hcount
                simp only [Option.getD_some] at hcount
                refine ⟨q, hload, ?_⟩
                have hpos : 0 < q.completedChapters.count
                    (progressKey classId subjectId chapterId) :=
                  List.count_pos_iff.mpr hmem
                omega
              · intro hnd
                exact ⟨q, hload, hnd⟩
      · rw [if_neg hmem] at h
        injection h with hst
        subst hst
        have hload' : loadProgress (saveProgress
            { p.getD emptyProgress with completedChapters :=
                (p.getD emptyProgress).completedChapters ++
                  [progressKey classId subjectId chapterId] } st)
            = .ok (some { p.getD emptyProgress with completedChapters :=
                (p.getD emptyProgress).completedChapters ++
                  [progressKey classId subjectId chapterId] }) := by
          simp [loadProgress, saveProgress]
        refine ⟨?_, ?_⟩
        · simp [markChapterComplete, hload']
        · intro p2 hp2
          injection hp2 with hp2
          subst hp2
          constructor
          · intro hcount
            refine ⟨_, hload', ?_⟩
            simp only [List.count_append]
            rw [List.count_eq_zero.mpr hmem]
            simp
          · intro hnd
            refine ⟨_, hload', ?_⟩
            simp only [List.nodup_append]
            refine ⟨hnd, List.nodup_singleton _, ?_⟩
            intro a ha hb
            rw [List.mem_singleton] at hb
            exact hmem (hb ▸ ha)

/-- A storage that already records chapter "12-accounts-ch2" as complete. -/
def markedStorage : Storage :=
  { progress := some (.wellFormed
      { completedChapters := ["12-accounts-ch2"], quizScores := [] }),
    cache := none }

theorem markChapterComplete_idempotent_witness :
    markChapterComplete 12 "accounts" "ch2" markedStorage = .ok markedStorage :=
  (markChapterComplete_idempotent 12 "accounts" "ch2" emptyStorage _ rfl).1

/-- C10: the two progress mutators frame each other's field. From any
parseable progress state, `saveQuizScore` updates exactly the `quizScores`
entry for its key, leaving `completedChapters`, every other `quizScores`
entry and the cache cell unchanged; `markChapterComplete` leaves
`quizScores` and the cache cell unchanged. -/
theorem progress_mutators_frame (classId : Nat) (subjectId chapterId : String)
    (r : QuizResult) (st st1 st2 : Storage) (p : Option UserProgress)
    (hp : loadProgress st = .ok p)
    (h1 : saveQuizScore classId subjectId chapterId r st = .ok st1)
    (h2 : markChapterComplete classId subjectId chapterId st = .ok st2) :
    st1.cache = st.cache ∧ st2.cache = st.cache ∧
    (∃ p1, loadProgress st1 = .ok (some p1) ∧
      p1.completedChapters = (p.getD emptyProgress).completedChapters ∧
      lookupKey p1.quizScores (progressKey classId subjectId chapterId) = some r ∧
      ∀ k, k ≠ progressKey classId subjectId chapterId →
        lookupKey p1.quizScores k = lookupKey (p.getD emptyProgress).quizScores k) ∧
    (∃ p2, loadProgress st2 = .ok (some p2) ∧
      p2.quizScores = (p.getD emptyProgress).quizScores) := by
  simp only [saveQuizScore, hp] at h1
  injection h1 with h1
  subst h1
  simp only [markChapterComplete, hp] at h2
  refine ⟨rfl, ?_, ?_, ?_⟩
  · by_cases hmem : progressKey classId subjectId chapterId ∈
        (p.getD emptyProgress).completedChapters
    · rw [if_pos hmem] at h2
      injection h2 with h2
      subst h2
      rfl
    · rw [if_neg hmem] at h2
      injection h2 with h2
      subst h2
      rfl
  · refine ⟨_, rfl, rfl, ?_, ?_⟩
    · exact lookupKey_setKey_self _ _ _
    · intro k hk
      exact lookupKey_setKey_ne _ _ _ _ hk
  · by_cases hmem : progressKey classId subjectId chapterId ∈
        (p.getD emptyProgress).completedChapters
    · rw [if_pos hmem] at h2
      injection h2 with h2
      subst h2
      cases p with
      | none => simp [emptyProgress] at hmem
      | some q => exact ⟨q, hp, rfl⟩
    · rw [if_neg hmem] at h2
      injection h2 with h2
      subst h2
      refine ⟨{ p.getD emptyProgress with completedChapters :=
          (p.getD emptyProgress).completedChapters ++
            [progressKey classId subjectId chapterId] }, ?_, rfl⟩
      simp [loadProgress, saveProgress]

/-- Storage after saving one quiz score into the empty storage. -/
def scoredStorage : Storage :=
  { progress := some (.wellFormed
      { completedChapters := [],
        quizScores := [("11-stats-c3", { score := 3, total := 5, date := "d" })] }),
    cache := none }

/-- Storage after marking one chapter complete in the empty storage. -/
def completedStorage : Storage :=
  { progress := some (.wellFormed
      { completedChapters := ["11-stats-c3"], quizScores := [] }),
    cache := none }

theorem progress_mutators_frame_witness :
    loadProgress emptyStorage = .ok none ∧
    saveQuizScore 11 "stats" "c3" { score := 3, total := 5, date := "d" } emptyStorage
      = .ok scoredStorage ∧
    markChapterComplete 11 "stats" "c3" emptyStorage = .ok completedStorage ∧
    scoredStorage.cache = emptyStorage.cache :=
  ⟨rfl, rfl, rfl,
    (progress_mutators_frame 11 "stats" "c3" { score := 3, total := 5, date := "d" }
      emptyStorage scoredStorage completedStorage none rfl rfl rfl).1⟩

/-- C4 counterexample: the claim states provider-failure fallbacks are
never written into the content cache. On a cold start with both provider
calls failing, the error-marker explanation fallback is cached under the
content key and the canonicalized syllabus fallback under the syllabus
key. -/
theorem provider_fallback_written_to_cache :
    getCachedContent "content_12_accounts_ch1_0"
        (initializeChapter .rejects .rejects
          "syllabus_12_accounts_ch1" "content_12_accounts_ch1_0" emptyStorage).2
      = some (encodeExpl explanationFallback) ∧
    getCachedContent "syllabus_12_accounts_ch1"
        (initializeChapter .rejects .rejects
          "syllabus_12_accounts_ch1" "content_12_accounts_ch1_0" emptyStorage).2
      = some (encodeTopics
          ["Introduction", "Overview", "Main Concepts", "Conclusion"]) :=
  ⟨rfl, rfl⟩

/-- The existing cache bytes parse (or the cell is absent or empty). -/
def cacheReadable (st : Storage) : Prop :=
  ∃ m, readCacheContainer st = .ok m

/-- C4 as amended: on provider failure every artifact kind yields its
fixed fallback (default topic lists for syllabus, the error-marker
explanation, empty lists for quiz and glossary); the empty quiz and
glossary fallbacks are not cached (guarded by non-emptiness checks), but
the syllabus and explanation fallbacks are returned as ordinary results
by the wrappers and the cold-start path writes them into the cache. -/
theorem provider_failure_fallbacks (qk gk sk ck : String) (st : Storage)
    (hread : cacheReadable st) :
    loadQuizOnMiss .rejects qk st = ([], st) ∧
    fetchTermsOnMiss .rejects gk st = ([], st) ∧
    getChapterSyllabus .rejects = ["Overview", "Main Concepts", "Conclusion"] ∧
    generateTopicExplanation .rejects = explanationFallback ∧
    (initColdStart .rejects .rejects sk ck st).1
      = ["Introduction", "Overview", "Main Concepts", "Conclusion"] ∧
    getCachedContent ck (initColdStart .rejects .rejects sk ck st).2
      = some (encodeExpl explanationFallback) := by
  obtain ⟨m, hm⟩ := hread
  refine ⟨rfl, rfl, rfl, rfl, rfl, ?_⟩
  have hm1 := readCacheContainer_save hm sk
    (encodeTopics ["Introduction", "Overview", "Main Concepts", "Conclusion"])
  have hread1 : readCacheContainer (saveCachedContent sk
      (encodeTopics ["Introduction", "Overview", "Main Concepts", "Conclusion"]) st)
      = .ok (if jsonLen (Json.obj (setKey m sk
          (encodeTopics ["Introduction", "Overview", "Main Concepts", "Conclusion"])))
            > 4500000
        then [(sk, encodeTopics
          ["Introduction", "Overview", "Main Concepts", "Conclusion"])]
        else setKey m sk (encodeTopics
          ["Introduction", "Overview", "Main Concepts", "Conclusion"])) := hm1
  exact getCachedContent_save_self hread1 ck (encodeExpl explanationFallback) rfl

theorem provider_failure_fallbacks_witness :
    getCachedContent "c0" (initColdStart .rejects .rejects "s0" "c0" emptyStorage).2
      = some (encodeExpl explanationFallback) :=
  (provider_failure_fallbacks "q0" "g0" "s0" "c0" emptyStorage ⟨[], rfl⟩).2.2.2.2.2

/-! ## Overflow machinery: a concrete container exceeding the 4.5 MB ceiling -/

/-- A 4500001-character string, enough to push any container over the
serialized-size ceiling on its own. -/
def bigStr : String := String.mk (List.replicate 4500001 'a')

/-- A storage whose cache already holds one huge entry. -/
def bigStorage : Storage :=
  { progress := none, cache := some (.wellFormed [("old", Json.str bigStr)]) }

theorem escLen_replicate (n : Nat) (c : Char) :
    escLen (String.mk (List.replicate n c)) = n * escCharLen c := by
  unfold escLen
  rw [show (String.mk (List.replicate n c)).data = List.replicate n c from rfl]
  rw [List.map_replicate, List.sum_replicate, smul_eq_mul]

theorem escCharLen_a : escCharLen 'a' = 1 := rfl

theorem escLen_bigStr : escLen bigStr = 4500001 := by
  show escLen (String.mk (List.replicate 4500001 'a')) = 4500001
  rw [escLen_replicate, escCharLen_a, Nat.mul_one]

theorem jsonLen_two_fields (k1 k2 : String) (v1 v2 : Json) :
    jsonLen (Json.obj [(k1, v1), (k2, v2)])
      = 2 + (2 + escLen k1 + 1 + jsonLen v1 + 1 + (2 + escLen k2 + 1 + jsonLen v2)) := by
  rw [jsonLen, jsonLenFields, jsonLenFields]

theorem jsonLen_bigStr_str : jsonLen (Json.str bigStr) = 4500003 := by
  rw [jsonLen, escLen_bigStr]

theorem jsonLen_big_flag_container :
    jsonLen (Json.obj [("old", Json.str bigStr), ("flag", Json.bool false)]) = 4500024 := by
  rw [jsonLen_two_fields, jsonLen_bigStr_str]
  have h1 : escLen "old" = 3 := rfl
  have h2 : escLen "flag" = 4 := rfl
  have h3 : jsonLen (Json.bool false) = 5 := rfl
  rw [h1, h2, h3]

theorem jsonLen_big_new_container :
    jsonLen (Json.obj [("old", Json.str bigStr), ("new", Json.num 1)]) = 4500019 := by
  rw [jsonLen_two_fields, jsonLen_bigStr_str]
  have h1 : escLen "old" = 3 := rfl
  have h2 : escLen "new" = 3 := rfl
  have h3 : jsonLen (Json.num 1) = 1 := rfl
  rw [h1, h2, h3]

/-- Reading any key from a container holding exactly one falsy entry
yields absent (`currentCache[key] as T || null`). -/
theorem getCached_falsy_single (st2 : Storage) (k : String) (v : Json)
    (h2 : readCacheContainer st2 = .ok [(k, v)]) (hfalsy : v.isTruthy = false) :
    getCachedContent k st2 = none := by
  simp [getCachedContent, h2, lookupKey, hfalsy]

/-- C6 counterexample: the claim states that after an overflowing write of
(k, v), `getCachedContent k` returns `v`. Writing the falsy value `false`
under key `"flag"` into a container that then exceeds the ceiling does
trigger the full flush, but the subsequent read of `"flag"` returns
absent (the read path is `currentCache[key] as T || null`), not `v`. -/
theorem cache_overflow_falsy_entry_unreadable :
    jsonLen (Json.obj (setKey [("old", Json.str bigStr)] "flag" (Json.bool false)))
      > 4500000 ∧
    getCachedContent "flag" (saveCachedContent "flag" (Json.bool false) bigStorage)
      = none := by
  have hset : setKey [("old", Json.str bigStr)] "flag" (Json.bool false)
      = [("old", Json.str bigStr), ("flag", Json.bool false)] := rfl
  have hbig : jsonLen (Json.obj (setKey [("old", Json.str bigStr)] "flag"
      (Json.bool false))) > 4500000 := by
    rw [hset, jsonLen_big_flag_container]
    norm_num
  refine ⟨hbig, ?_⟩
  have hread : readCacheContainer bigStorage = .ok [("old", Json.str bigStr)] := rfl
  have h2 := readCacheContainer_save hread "flag" (Json.bool false)
  rw [hset, jsonLen_big_flag_container] at h2
  rw [if_pos (by norm_num : (4500024 : Nat) > 4500000)] at h2
  exact getCached_falsy_single _ _ _ h2 rfl

/-- C6 as amended: if inserting (k, v) pushes the serialized container
over the ceiling, the stored container is replaced by one holding only
the just-written entry: afterwards every other key reads back absent, and
the just-written key reads back `v` provided `v` is truthy (a falsy `v`
reads back absent through `|| null`). -/
theorem cache_overflow_full_flush (k : String) (v : Json) (st : Storage)
    (m : List (String × Json))
    (hread : readCacheContainer st = .ok m)
    (hv : v.isTruthy = true)
    (hsize : jsonLen (Json.obj (setKey m k v)) > 4500000) :
    getCachedContent k (saveCachedContent k v st) = some v ∧
    ∀ k', k' ≠ k → getCachedContent k' (saveCachedContent k v st) = none := by
  have h2 := readCacheContainer_save hread k v
  rw [if_pos hsize] at h2
  constructor
  · simp [getCachedContent, h2, lookupKey, hv]
  · intro k' hk
    have hne : k ≠ k' := fun he => hk he.symm
    simp [getCachedContent, h2, lookupKey, hne]

theorem cache_overflow_full_flush_witness :
    getCachedContent "new" (saveCachedContent "new" (Json.num 1) bigStorage)
      = some (Json.num 1) ∧
    getCachedContent "old" (saveCachedContent "new" (Json.num 1) bigStorage)
      = none := by
  have hsize : jsonLen (Json.obj (setKey [("old", Json.str bigStr)] "new"
      (Json.num 1))) > 4500000 := by
    rw [show setKey [("old", Json.str bigStr)] "new" (Json.num 1)
        = [("old", Json.str bigStr), ("new", Json.num 1)] from rfl]
    rw [jsonLen_big_new_container]
    norm_num
  have h := cache_overflow_full_flush "new" (Json.num 1) bigStorage
    [("old", Json.str bigStr)] rfl rfl hsize
  exact ⟨h.1, h.2 "old" (by decide)⟩
